import Mathlib

/-!
# Verification of the SSO authentication middleware

A shallow embedding of `openhands/server/sso_middleware.py`: the path
classifier, credential extractor, token-verification cache, token verifier,
the gate (`SSOMiddleware.dispatch`) and the OAuth callback handler
(`sso_callback`), together with theorems about the documented properties.

Modelling conventions:
* The monotonic clock is a `Nat` (seconds); the cache TTL is `300`.
* The token cache (a Python dict keyed by token) is modelled as the map
  `String → Option (Payload × Nat)` holding the verified payload and its
  expiry instant.
* The outcome of one upstream HTTP round trip is an oracle value
  `NetOutcome`: `netError` stands for any `httpx.HTTPError` (timeout,
  connection error); `response status body` stands for a completed HTTP
  response, where `body = some p` means the body parsed as JSON object `p`
  and `body = none` means `resp.json()` would raise (body not valid JSON).
* JSON object payloads are association lists `List (String × String)`;
  `dict.get(k, '')` is `pget`.
* An uncaught Python exception is the result constructor `exn`.
-/

namespace SSO

/-- JSON object payload, as an association list (Python dict). -/
abbrev Payload := List (String × String)

/-- Python `payload.get(key, '')` on a dict. -/
def pget (p : Payload) (k : String) : String :=
  match p.find? (fun e => e.1 == k) with
  | some e => e.2
  | none => ""

/-! ## String helpers (Python `str` operations, over the character list) -/

/-- Python `s.lower()` (ASCII). -/
def strToLower (s : String) : String := ⟨s.data.map Char.toLower⟩

/-- Python `s.startswith(pre)`. -/
def strStartsWith (s pre : String) : Bool := pre.data.isPrefixOf s.data

/-- Python `s[n:]`. -/
def strDrop (s : String) (n : Nat) : String := ⟨s.data.drop n⟩

/-- Python `s.strip()`. -/
def strTrim (s : String) : String :=
  ⟨((s.data.dropWhile Char.isWhitespace).reverse.dropWhile Char.isWhitespace).reverse⟩

/-- Does `pat` occur as a contiguous sublist of the character list? -/
def charListContains (pat : List Char) : List Char → Bool
  | [] => pat.isEmpty
  | c :: rest => pat.isPrefixOf (c :: rest) || charListContains pat rest

/-- Python `pat in s` substring test. -/
def strContainsSub (s pat : String) : Bool := charListContains pat.data s.data

/-! ## Configuration -/

/-- Environment-sourced static configuration (`SSO_ISSUER`, `SSO_CLIENT_ID`,
`SSO_CLIENT_SECRET`, `SSO_CALLBACK_URL`). -/
structure Config where
  issuer : String
  clientId : String
  clientSecret : String
  callbackUrl : String
deriving DecidableEq, Repr

/-- The module defaults for the environment configuration. -/
def defaultConfig : Config :=
  { issuer := "https://login.orcest.ai"
    clientId := "maestrist"
    clientSecret := ""
    callbackUrl := "https://agent.orcest.ai/auth/callback" }

/-- Source constant `SSO_COOKIE_NAME`. -/
def SSO_COOKIE_NAME : String := "maestrist_sso_token"

/-- Source constant `_TOKEN_CACHE_TTL_SECONDS`. -/
def TOKEN_CACHE_TTL_SECONDS : Nat := 300

/-! ## Path classifier -/

/-- Source constant `UNAUTHENTICATED_PATH_PREFIXES`. -/
def UNAUTHENTICATED_PATH_PREFIXES : List String :=
  ["/health", "/alive", "/auth/callback", "/auth/logout",
   "/api/litellm-models", "/api/options/models"]

/-- Source constant `UNAUTHENTICATED_EXACT_PATHS`. -/
def UNAUTHENTICATED_EXACT_PATHS : List String := ["/health", "/alive"]

/-- Source function `_is_public_path`. -/
def isPublicPath (path : String) : Bool :=
  UNAUTHENTICATED_EXACT_PATHS.contains path
    || UNAUTHENTICATED_PATH_PREFIXES.any (fun pre => strStartsWith path pre)

/-! ## Verification cache -/

/-- The cache `_token_cache`: token → (verified payload, expiry instant). -/
def Cache := String → Option (Payload × Nat)

/-- The initial empty cache (`_token_cache = {}`). -/
def emptyCache : Cache := fun _ => none

/-- Source function `_cache_cleanup`: delete every entry whose expiry `exp <= now`. -/
def cacheCleanup (c : Cache) (now : Nat) : Cache :=
  fun k =>
    match c k with
    | some (p, e) => if e ≤ now then none else some (p, e)
    | none => none

/-- Dict insert/overwrite `_token_cache[token] = v`. -/
def cacheInsert (c : Cache) (k : String) (v : Payload × Nat) : Cache :=
  fun k' => if k' = k then some v else c k'

/-- Dict removal `_token_cache.pop(token, None)`. -/
def cachePop (c : Cache) (k : String) : Cache :=
  fun k' => if k' = k then none else c k'

/-! ## Token verifier -/

/-- Outcome of one upstream HTTP round trip, as seen by the caller. -/
inductive NetOutcome where
  /-- A completed response: `status` code and, when the body is valid JSON,
  its parsed object; `body = none` means `resp.json()` raises. -/
  | response (status : Nat) (body : Option Payload)
  /-- An `httpx.HTTPError`: timeout or connection error. -/
  | netError
deriving DecidableEq, Repr

/-- Result of `_verify_token`: the payload, `None`, or an uncaught
exception escaping the function. -/
inductive VerifyResult where
  | ok (payload : Payload)
  | unauth
  | exn
deriving DecidableEq, Repr

/-- Observable outcome of one `_verify_token` call: its result, the cache
it leaves behind, and the tokens it sent to the provider over the network. -/
structure VerifyOut where
  result : VerifyResult
  cache : Cache
  calls : List String

/-- The network part of `_verify_token` (everything after the cache
lookup misses), with the provider's behaviour supplied by the oracle
`net`: one POST to the verification endpoint; 200 with a JSON body inserts
a fresh entry expiring at `now + TTL`; 200 with a non-JSON body raises
(`resp.json()` raises a `json.JSONDecodeError`, which is not an
`httpx.HTTPError`, hence uncaught); non-200 pops any stale entry and
returns `None`; a network error (`httpx.HTTPError`) returns `None`. -/
def verifyNetwork (c1 : Cache) (now : Nat) (token : String)
    (net : NetOutcome) : VerifyOut :=
  match net with
  | .netError => ⟨.unauth, c1, [token]⟩
  | .response status body =>
    if status = 200 then
      match body with
      | some payload =>
          ⟨.ok payload,
           cacheInsert c1 token (payload, now + TOKEN_CACHE_TTL_SECONDS),
           [token]⟩
      | none => ⟨.exn, c1, [token]⟩
    else ⟨.unauth, cachePop c1 token, [token]⟩

/-- Source function `_verify_token`: cleanup, then cache lookup (an
unexpired hit returns the cached payload with no network call), otherwise
the network part `verifyNetwork`. -/
def verifyToken (c : Cache) (now : Nat) (token : String) (net : NetOutcome) :
    VerifyOut :=
  let c1 := cacheCleanup c now
  match c1 token with
  | some (payload, expiry) =>
    if now < expiry then ⟨.ok payload, c1, []⟩
    else verifyNetwork c1 now token net
  | none => verifyNetwork c1 now token net

/-! ## Credential extractor -/

/-- An inbound HTTP request, restricted to the fields the middleware reads. -/
structure Request where
  path : String
  cookies : List (String × String)
  /-- The `Authorization` header, `none` when absent. -/
  authorization : Option String
  /-- The `Accept` header, `none` when absent. -/
  accept : Option String
  /-- The full original URL `str(request.url)`. -/
  url : String
deriving DecidableEq, Repr

/-- Cookie lookup `request.cookies.get(SSO_COOKIE_NAME)`. -/
def lookupCookie (r : Request) : Option String :=
  match r.cookies.find? (fun e => e.1 == SSO_COOKIE_NAME) with
  | some e => some e.2
  | none => none

/-- The Bearer-header fallback of `_extract_token`:
`request.headers.get('authorization', '')`, case-insensitive scheme check,
then `auth_header[7:].strip()`. -/
def bearerFromHeader (r : Request) : Option String :=
  let authHeader := r.authorization.getD ""
  if strStartsWith (strToLower authHeader) "bearer " then
    some (strTrim (strDrop authHeader 7))
  else none

/-- Source function `_extract_token`: the cookie if it is present and truthy (non-empty),
else the Bearer header fallback. -/
def extractToken (r : Request) : Option String :=
  match lookupCookie r with
  | some t => if t = "" then bearerFromHeader r else some t
  | none => bearerFromHeader r

/-! ## Login URL construction -/

/-- Source function `_is_browser_request`: `'text/html' in request.headers.get('accept', '')`. -/
def isBrowserRequest (r : Request) : Bool :=
  strContainsSub (r.accept.getD "") "text/html"

/-- The `params` dict built by `_build_sso_login_url`, in insertion order;
`state` is added only when `redirect_after` is truthy. -/
def ssoLoginParams (cfg : Config) (redirectAfter : Option String) :
    List (String × String) :=
  let params := [("response_type", "code"), ("client_id", cfg.clientId),
                 ("redirect_uri", cfg.callbackUrl),
                 ("scope", "openid profile email")]
  match redirectAfter with
  | some s => if s = "" then params else params ++ [("state", s)]
  | none => params

/-- Upper-case hexadecimal digit. -/
def hexDigitChar (n : Nat) : Char :=
  if n < 10 then Char.ofNat (48 + n) else Char.ofNat (55 + n)

/-- Characters `urllib.parse.quote_plus` leaves unencoded. -/
def isUrlSafeChar (c : Char) : Bool :=
  c.isAlpha || c.isDigit || c == '_' || c == '.' || c == '-' || c == '~'

/-- Python `quote_plus` on one (ASCII) character: safe characters pass through,
space becomes `+`, everything else is percent-encoded. -/
def quotePlusChar (c : Char) : List Char :=
  if isUrlSafeChar c then [c]
  else if c == ' ' then ['+']
  else ['%', hexDigitChar (c.toNat / 16 % 16), hexDigitChar (c.toNat % 16)]

/-- Python `urllib.parse.quote_plus` (the ASCII fragment of it). -/
def quotePlus (s : String) : String := ⟨(s.data.map quotePlusChar).flatten⟩

/-- Python `urllib.parse.urlencode`: the `k=v` pairs joined by `&`. -/
def urlencode : List (String × String) → String
  | [] => ""
  | [p] => quotePlus p.1 ++ "=" ++ quotePlus p.2
  | p :: rest => quotePlus p.1 ++ "=" ++ quotePlus p.2 ++ "&" ++ urlencode rest

/-- Source function `_build_sso_login_url`. -/
def buildSsoLoginUrl (cfg : Config) (redirectAfter : Option String) : String :=
  cfg.issuer ++ "/authorize?" ++ urlencode (ssoLoginParams cfg redirectAfter)

/-! ## The gate (`SSOMiddleware.dispatch`) -/

/-- The identity attached to `request.state.sso_user`. -/
structure Identity where
  sub : String
  name : String
  role : String
  email : String
deriving DecidableEq, Repr

/-- The gate's decision for one request. -/
inductive GateDecision where
  /-- Forwarding `call_next(request)`: the request is forwarded downstream; on the
  verified path the attached identity is `some ident`, on the public path
  nothing is attached. -/
  | admitted (ident : Option Identity)
  /-- A `RedirectResponse(url, 302)`. -/
  | redirect (url : String)
  /-- A 401 `JSONResponse` with the given content. -/
  | rejected (content : List (String × String))
  /-- An uncaught exception escapes the middleware. -/
  | exn
deriving DecidableEq, Repr

/-- The 401 JSON body of `SSOMiddleware._unauthenticated_response`. -/
def authRequiredContent : List (String × String) :=
  [("error", "authentication_required"),
   ("message",
    "SSO authentication is required. Provide a valid token via the \""
      ++ SSO_COOKIE_NAME ++ "\" cookie or an Authorization: Bearer header.")]

/-- Source function `SSOMiddleware._unauthenticated_response`. -/
def unauthenticatedResponse (cfg : Config) (r : Request) : GateDecision :=
  if isBrowserRequest r then
    .redirect (buildSsoLoginUrl cfg (some r.url))
  else
    .rejected authRequiredContent

/-- Observable outcome of one `dispatch` call: the decision, the cache left
behind, the tokens sent to the provider, and whether the credential
extractor ran. -/
structure DispatchOut where
  decision : GateDecision
  cache : Cache
  calls : List String
  extractorRan : Bool

/-- Source method `SSOMiddleware.dispatch`: public paths pass straight through; otherwise
extract the credential, verify it, and admit with the four-field identity,
or produce the unauthenticated response. -/
def dispatch (cfg : Config) (c : Cache) (now : Nat) (r : Request)
    (net : NetOutcome) : DispatchOut :=
  if isPublicPath r.path then ⟨.admitted none, c, [], false⟩
  else
    match extractToken r with
    | none => ⟨unauthenticatedResponse cfg r, c, [], true⟩
    | some token =>
      let v := verifyToken c now token net
      match v.result with
      | .ok payload =>
          ⟨.admitted (some ⟨pget payload "sub", pget payload "name",
                            pget payload "role", pget payload "email"⟩),
           v.cache, v.calls, true⟩
      | .unauth => ⟨unauthenticatedResponse cfg r, v.cache, v.calls, true⟩
      | .exn => ⟨.exn, v.cache, v.calls, true⟩

/-! ## OAuth callback handler (`sso_callback`) -/

/-- The query parameters the callback reads. -/
structure CallbackRequest where
  code : Option String
  state : Option String
deriving DecidableEq, Repr

/-- Attributes passed to `response.set_cookie(...)`. -/
structure SetCookie where
  key : String
  value : String
  httpOnly : Bool
  secure : Bool
  sameSite : String
  maxAge : Nat
  path : String
deriving DecidableEq, Repr

/-- The callback handler's HTTP response. -/
inductive CallbackResult where
  /-- A `JSONResponse` with the given status and error field. -/
  | jsonError (status : Nat) (error : String)
  /-- A `RedirectResponse(url, 302)` carrying a `set_cookie`. -/
  | redirectWithCookie (url : String) (cookie : SetCookie)
  /-- An uncaught exception escapes the handler. -/
  | exn
deriving DecidableEq, Repr

/-- Source handler `sso_callback`, with the token-endpoint round trip supplied by the
oracle `net`.  Mirrors the source: missing/empty `code` → 400; network
error during the exchange → 502; non-200 → 401; 200 whose body is not
valid JSON → `resp.json()` raises outside the `try` (uncaught); empty
`access_token` → 401; otherwise 302 to `state` (when truthy) or `/`,
setting the session cookie. -/
def ssoCallback (req : CallbackRequest) (net : NetOutcome) : CallbackResult :=
  match req.code with
  | none => .jsonError 400 "missing_code"
  | some code =>
    if code = "" then .jsonError 400 "missing_code"
    else
      match net with
      | .netError => .jsonError 502 "sso_unavailable"
      | .response status body =>
        if status ≠ 200 then .jsonError 401 "token_exchange_failed"
        else
          match body with
          | none => .exn
          | some tokenResponse =>
            let accessToken := pget tokenResponse "access_token"
            if accessToken = "" then .jsonError 401 "no_access_token"
            else
              let redirectUrl :=
                match req.state with
                | some s => if s = "" then "/" else s
                | none => "/"
              .redirectWithCookie redirectUrl
                ⟨SSO_COOKIE_NAME, accessToken, true, true, "lax", 86400, "/"⟩

/-! ## A trace of verifier invocations

The only code that touches the cache is `_verify_token` (and its helper
`_cache_cleanup`, which it always runs first); a trace of verifier
invocations therefore describes every evolution of the cache the program
can produce. -/

/-- One verifier invocation: at what time, for which token, and with which
upstream outcome. -/
structure Step where
  time : Nat
  token : String
  net : NetOutcome

/-- The cache left behind by a sequence of `_verify_token` invocations. -/
def runSteps (c : Cache) : List Step → Cache
  | [] => c
  | s :: rest => runSteps (verifyToken c s.time s.token s.net).cache rest

/-! ## Cache and verifier lemmas -/

theorem cacheCleanup_eq_some_iff (c : Cache) (now : Nat) (k : String)
    (pe : Payload × Nat) :
    cacheCleanup c now k = some pe ↔ c k = some pe ∧ now < pe.2 := by
  simp only [cacheCleanup]
  cases h : c k with
  | none => simp
  | some qe =>
    obtain ⟨q, e⟩ := qe
    by_cases he : e ≤ now
    · simp only [if_pos he]
      constructor
      · intro hfalse; exact absurd hfalse (by simp)
      · rintro ⟨heq, hlt⟩
        cases heq
        omega
    · simp only [if_neg he]
      constructor
      · intro heq
        refine ⟨heq, ?_⟩
        cases heq
        simpa using Nat.lt_of_not_le he
      · rintro ⟨heq, -⟩
        exact heq

theorem cacheCleanup_eq_none_of_none (c : Cache) (now : Nat) (k : String)
    (h : c k = none) : cacheCleanup c now k = none := by
  simp [cacheCleanup, h]

theorem cacheInsert_self (c : Cache) (k : String) (v : Payload × Nat) :
    cacheInsert c k v k = some v := by
  simp [cacheInsert]

theorem cacheInsert_other (c : Cache) (k k' : String) (v : Payload × Nat)
    (hne : k' ≠ k) : cacheInsert c k v k' = c k' := by
  simp [cacheInsert, hne]

theorem cachePop_self (c : Cache) (k : String) : cachePop c k k = none := by
  simp [cachePop]

theorem cachePop_other (c : Cache) (k k' : String) (hne : k' ≠ k) :
    cachePop c k k' = c k' := by
  simp [cachePop, hne]

/-- Every invocation of the network part performs exactly one provider
call, with the given token. -/
theorem verifyNetwork_calls (c1 : Cache) (now : Nat) (token : String)
    (net : NetOutcome) : (verifyNetwork c1 now token net).calls = [token] := by
  cases net with
  | netError => rfl
  | response status body =>
    by_cases hs : status = 200
    · subst hs
      cases body <;> rfl
    · simp [verifyNetwork, hs]

/-- The network part touches no cache key other than its own token. -/
theorem verifyNetwork_cache_other (c1 : Cache) (now : Nat) (token k : String)
    (net : NetOutcome) (hne : k ≠ token) :
    (verifyNetwork c1 now token net).cache k = c1 k := by
  cases net with
  | netError => rfl
  | response status body =>
    by_cases hs : status = 200
    · subst hs
      cases body with
      | none => rfl
      | some payload =>
        simpa [verifyNetwork] using cacheInsert_other c1 token k _ hne
    · simpa [verifyNetwork, hs] using cachePop_other c1 token k hne

/-- A surviving (hence unexpired) cache entry is served from the cache:
no network call, the cached payload, the cleaned cache left unchanged. -/
theorem verifyToken_hit (c : Cache) (now : Nat) (token : String)
    (net : NetOutcome) (p : Payload) (e : Nat)
    (hc : cacheCleanup c now token = some (p, e)) :
    verifyToken c now token net = ⟨.ok p, cacheCleanup c now, []⟩ := by
  have hlt : now < e := ((cacheCleanup_eq_some_iff c now token (p, e)).mp hc).2
  simp only [verifyToken]
  rw [hc]
  simp [hlt]

/-- A cache miss (after cleanup) goes to the network part. -/
theorem verifyToken_miss (c : Cache) (now : Nat) (token : String)
    (net : NetOutcome) (hc : cacheCleanup c now token = none) :
    verifyToken c now token net = verifyNetwork (cacheCleanup c now) now token net := by
  simp only [verifyToken]
  rw [hc]

/-- A cache miss (after cleanup) issues exactly one provider call. -/
theorem verifyToken_calls_of_miss (c : Cache) (now : Nat) (token : String)
    (net : NetOutcome) (hc : cacheCleanup c now token = none) :
    (verifyToken c now token net).calls = [token] := by
  rw [verifyToken_miss c now token net hc]
  exact verifyNetwork_calls _ _ _ _

/-- One verifier invocation, for any token and any upstream outcome,
leaves an unexpired entry of the cache untouched. -/
theorem verifyToken_preserves_unexpired (c : Cache) (now : Nat)
    (tk tok : String) (net : NetOutcome) (p : Payload) (e : Nat)
    (hc : c tok = some (p, e)) (hlt : now < e) :
    (verifyToken c now tk net).cache tok = some (p, e) := by
  have h1 : cacheCleanup c now tok = some (p, e) :=
    (cacheCleanup_eq_some_iff c now tok (p, e)).mpr ⟨hc, hlt⟩
  by_cases htk : tk = tok
  · subst htk
    rw [verifyToken_hit c now tk net p e h1]
    exact h1
  · have hne : tok ≠ tk := fun h => htk h.symm
    cases hcl : cacheCleanup c now tk with
    | none =>
      rw [verifyToken_miss c now tk net hcl]
      rw [verifyNetwork_cache_other _ _ _ _ _ hne]
      exact h1
    | some qe =>
      obtain ⟨q, e'⟩ := qe
      rw [verifyToken_hit c now tk net q e' hcl]
      exact h1

/-- A whole trace of verifier invocations, each happening strictly before
the entry's expiry instant, leaves the entry untouched. -/
theorem runSteps_preserves_unexpired (steps : List Step) :
    ∀ (c : Cache) (tok : String) (p : Payload) (e : Nat),
      c tok = some (p, e) → (∀ s ∈ steps, s.time < e) →
      runSteps c steps tok = some (p, e) := by
  induction steps with
  | nil =>
    intro c tok p e hc _
    exact hc
  | cons s rest ih =>
    intro c tok p e hc hall
    have hstep : (verifyToken c s.time s.token s.net).cache tok = some (p, e) :=
      verifyToken_preserves_unexpired c s.time s.token tok s.net p e hc
        (hall s (List.mem_cons_self s rest))
    exact ih _ tok p e hstep (fun s' hs' => hall s' (List.mem_cons_of_mem s hs'))

/-- All-whitespace strings strip to the empty string. -/
theorem strTrim_all_whitespace (s : String)
    (h : s.data.all Char.isWhitespace = true) : strTrim s = "" := by
  have h1 : s.data.dropWhile Char.isWhitespace = [] :=
    List.dropWhile_eq_nil_iff.mpr (fun x hx => List.all_eq_true.mp h x hx)
  unfold strTrim
  rw [h1]
  rfl

/-- On the non-public path with an extracted token, the gate's provider
calls are exactly the verifier's. -/
theorem dispatch_calls_of_token
    (cfg : Config) (c : Cache) (now : Nat) (r : Request) (net : NetOutcome)
    (token : String) (hpub : isPublicPath r.path = false)
    (hex : extractToken r = some token) :
    (dispatch cfg c now r net).calls = (verifyToken c now token net).calls := by
  simp only [dispatch, hpub, Bool.false_eq_true, if_false, hex]
  cases hres : (verifyToken c now token net).result <;> simp [hres]

/-- A verification that performed a provider call and succeeded has cached
its payload with expiry `now + TTL`. -/
theorem verifyToken_fresh_success_entry
    (c : Cache) (t : Nat) (token : String) (net : NetOutcome) (p : Payload)
    (hok : (verifyToken c t token net).result = .ok p)
    (hfresh : (verifyToken c t token net).calls ≠ []) :
    (verifyToken c t token net).cache token
      = some (p, t + TOKEN_CACHE_TTL_SECONDS) := by
  cases hcl : cacheCleanup c t token with
  | some qe =>
    obtain ⟨q, e⟩ := qe
    rw [verifyToken_hit c t token net q e hcl] at hfresh
    simp at hfresh
  | none =>
    rw [verifyToken_miss c t token net hcl] at hok ⊢
    cases net with
    | netError => simp [verifyNetwork] at hok
    | response status body =>
      by_cases hs : status = 200
      · subst hs
        cases body with
        | none => simp [verifyNetwork] at hok
        | some q =>
          have hq : q = p := by simpa [verifyNetwork] using hok
          subst hq
          simpa [verifyNetwork] using cacheInsert_self (cacheCleanup c t) token _
      · simp [verifyNetwork, hs] at hok

/-- On the non-public path, an absent credential or an unauthenticated
verification produces `_unauthenticated_response`. -/
theorem dispatch_decision_of_unauth
    (cfg : Config) (c : Cache) (now : Nat) (r : Request) (net : NetOutcome)
    (hpub : isPublicPath r.path = false)
    (hcred : extractToken r = none ∨
      ∃ t, extractToken r = some t ∧ (verifyToken c now t net).result = .unauth) :
    (dispatch cfg c now r net).decision = unauthenticatedResponse cfg r := by
  rcases hcred with h | ⟨t, ht, hv⟩
  · simp [dispatch, hpub, h]
  · simp [dispatch, hpub, ht, hv]

/-! ## The claims -/

/-- Claim C2: For every request whose path is public — i.e. the path exactly
equals a member of the fixed exact-match set or starts with a member of the
fixed prefix list — the gate admits the request (forwards it downstream,
with nothing attached) without running the credential extractor, without
touching the verification cache, and without any network call, even when
the request carries no credential. -/
theorem public_path_admitted_without_any_work
    (cfg : Config) (c : Cache) (now : Nat) (r : Request) (net : NetOutcome)
    (h : r.path ∈ UNAUTHENTICATED_EXACT_PATHS ∨
         ∃ pre ∈ UNAUTHENTICATED_PATH_PREFIXES, strStartsWith r.path pre = true) :
    (dispatch cfg c now r net).decision = .admitted none ∧
    (dispatch cfg c now r net).cache = c ∧
    (dispatch cfg c now r net).calls = [] ∧
    (dispatch cfg c now r net).extractorRan = false := by
  have hp : isPublicPath r.path = true := by
    rcases h with h | ⟨pre, hmem, hpre⟩
    · simp [isPublicPath, h]
    · simp only [isPublicPath, Bool.or_eq_true, List.any_eq_true]
      exact Or.inr ⟨pre, hmem, hpre⟩
  simp [dispatch, hp]

/-- Witness for C2: `GET /health` with no credential, an unreachable
provider, and an empty cache. -/
theorem public_path_admitted_without_any_work_witness :
    (dispatch defaultConfig emptyCache 0 ⟨"/health", [], none, none, "u"⟩
        .netError).decision = .admitted none ∧
    (dispatch defaultConfig emptyCache 0 ⟨"/health", [], none, none, "u"⟩
        .netError).cache = emptyCache ∧
    (dispatch defaultConfig emptyCache 0 ⟨"/health", [], none, none, "u"⟩
        .netError).calls = [] ∧
    (dispatch defaultConfig emptyCache 0 ⟨"/health", [], none, none, "u"⟩
        .netError).extractorRan = false :=
  public_path_admitted_without_any_work defaultConfig emptyCache 0
    ⟨"/health", [], none, none, "u"⟩ .netError (Or.inl (by decide))

/-- Claim C7 (counterexample): A request whose session cookie is present but
has the empty value, alongside `Authorization: Bearer abc`: the extractor
ignores the present cookie (the code tests truthiness, not presence) and
consults the header, returning `abc` — not the cookie's value `""` as the
claim requires. -/
theorem extractor_cookie_present_counterexample :
    lookupCookie ⟨"/api/x", [("maestrist_sso_token", "")], some "Bearer abc",
        none, "u"⟩ = some "" ∧
    extractToken ⟨"/api/x", [("maestrist_sso_token", "")], some "Bearer abc",
        none, "u"⟩ = some "abc" := by
  decide

/-- Claim C7 (amended): The credential extractor returns the named session
cookie's value whenever that cookie is present with a non-empty value; when
the cookie is absent or empty it consults the `Authorization` header,
returning the whitespace-stripped remainder when the header matches the
Bearer scheme case-insensitively and absent otherwise; when neither source
is present it returns absent. The two sources are never merged. -/
theorem extractor_priority :
    (∀ (r : Request) (t : String), lookupCookie r = some t → t ≠ "" →
       extractToken r = some t) ∧
    (∀ r : Request, (lookupCookie r = none ∨ lookupCookie r = some "") →
       extractToken r = bearerFromHeader r) ∧
    (∀ (r : Request) (h : String), r.authorization = some h →
       strStartsWith (strToLower h) "bearer " = true →
       bearerFromHeader r = some (strTrim (strDrop h 7))) ∧
    (∀ (r : Request) (h : String), r.authorization = some h →
       strStartsWith (strToLower h) "bearer " = false →
       bearerFromHeader r = none) ∧
    (∀ r : Request, r.authorization = none → lookupCookie r = none →
       extractToken r = none) := by
  refine ⟨?_, ?_, ?_, ?_, ?_⟩
  · intro r t hc ht
    simp [extractToken, hc, ht]
  · rintro r (hc | hc) <;> simp [extractToken, hc]
  · intro r h ha hs
    simp [bearerFromHeader, ha, hs]
  · intro r h ha hs
    simp [bearerFromHeader, ha, hs]
  · intro r ha hc
    have hb : bearerFromHeader r = none := by
      simp [bearerFromHeader, ha]
      decide
    simp [extractToken, hc, hb]

/-- Witness for C7 (amended): a non-empty cookie wins over a Bearer
header. -/
theorem extractor_priority_witness :
    extractToken ⟨"/api/x", [("maestrist_sso_token", "ck")], some "Bearer abc",
        none, "u"⟩ = some "ck" :=
  extractor_priority.1
    ⟨"/api/x", [("maestrist_sso_token", "ck")], some "Bearer abc", none, "u"⟩
    "ck" (by decide) (by decide)

/-- Claim C10: A request with no session cookie whose `Authorization` header
is the Bearer scheme followed only by whitespace yields the empty-string
token from the extractor (not absent), so on a protected path the gate
takes the verification path and issues a provider call carrying the empty
token, rather than the missing-credential branch. -/
theorem whitespace_bearer_yields_empty_token
    (cfg : Config) (now : Nat) (r : Request) (net : NetOutcome) (hdr : String)
    (hcookie : lookupCookie r = none)
    (hauth : r.authorization = some hdr)
    (hscheme : strStartsWith (strToLower hdr) "bearer " = true)
    (hws : (strDrop hdr 7).data.all Char.isWhitespace = true)
    (hpriv : isPublicPath r.path = false) :
    extractToken r = some "" ∧
    (dispatch cfg emptyCache now r net).calls = [""] := by
  have htrim : strTrim (strDrop hdr 7) = "" := strTrim_all_whitespace _ hws
  have hex : extractToken r = some "" := by
    simp [extractToken, hcookie, bearerFromHeader, hauth, hscheme, htrim]
  refine ⟨hex, ?_⟩
  rw [dispatch_calls_of_token cfg emptyCache now r net "" hpriv hex]
  exact verifyToken_calls_of_miss _ _ _ _
    (cacheCleanup_eq_none_of_none _ _ _ rfl)

/-- Witness for C10: `Authorization: "Bearer   "` on a protected path with
an empty cache. -/
theorem whitespace_bearer_yields_empty_token_witness :
    extractToken ⟨"/api/x", [], some "Bearer   ", some "application/json", "u"⟩
        = some "" ∧
    (dispatch defaultConfig emptyCache 0
        ⟨"/api/x", [], some "Bearer   ", some "application/json", "u"⟩
        .netError).calls = [""] :=
  whitespace_bearer_yields_empty_token defaultConfig 0
    ⟨"/api/x", [], some "Bearer   ", some "application/json", "u"⟩
    .netError "Bearer   " (by decide) rfl (by decide) (by decide) (by decide)

/-- Claim C9: For every request to a protected path whose token verification
reaches the provider and returns HTTP 200 with a JSON object payload, the
gate treats the response as authoritative without validating its shape: the
request is admitted and the attached identity consists of exactly the four
fields `sub`, `name`, `role`, `email`, each taken from the payload when
present and the empty string when missing (a 200 payload lacking `sub`
still admits the request with an empty subject — see the witness). -/
theorem verified_200_admits_with_four_fields
    (cfg : Config) (c : Cache) (now : Nat) (r : Request) (t : String)
    (p : Payload)
    (hpub : isPublicPath r.path = false)
    (hex : extractToken r = some t)
    (hmiss : cacheCleanup c now t = none) :
    (dispatch cfg c now r (.response 200 (some p))).decision =
      .admitted (some ⟨pget p "sub", pget p "name", pget p "role",
                       pget p "email"⟩) := by
  have hv : verifyToken c now t (.response 200 (some p)) =
      ⟨.ok p, cacheInsert (cacheCleanup c now) t
                (p, now + TOKEN_CACHE_TTL_SECONDS), [t]⟩ := by
    rw [verifyToken_miss c now t _ hmiss]
    rfl
  simp [dispatch, hpub, hex, hv]

/-- Witness for C9: a 200 payload lacking `sub`, `role` and `email` admits
the request with those identity fields empty. -/
theorem verified_200_admits_with_four_fields_witness :
    (dispatch defaultConfig emptyCache 0
        ⟨"/api/x", [], some "Bearer tok", none, "u"⟩
        (.response 200 (some [("name", "N")]))).decision
      = .admitted (some ⟨"", "N", "", ""⟩) := by
  rw [verified_200_admits_with_four_fields defaultConfig emptyCache 0
      ⟨"/api/x", [], some "Bearer tok", none, "u"⟩ "tok" [("name", "N")]
      (by decide) (by decide) rfl]
  decide

/-- Claim C6: For every token whose verification call reaches the provider
(at least one provider call is made, which rules out an unexpired cache
hit) and receives a non-200 response: verification returns unauthenticated,
the cache entry for that token is gone, and the next verification call for
that token issues a fresh provider query rather than serving a stale
cached success. -/
theorem non200_revokes_cache_entry
    (c : Cache) (now : Nat) (token : String) (status : Nat)
    (body : Option Payload) (hs : status ≠ 200)
    (hnet : (verifyToken c now token (.response status body)).calls ≠ []) :
    (verifyToken c now token (.response status body)).result = .unauth ∧
    (verifyToken c now token (.response status body)).cache token = none ∧
    ∀ (now' : Nat) (net' : NetOutcome),
      (verifyToken ((verifyToken c now token (.response status body)).cache)
          now' token net').calls = [token] := by
  have hmiss : cacheCleanup c now token = none := by
    cases hcl : cacheCleanup c now token with
    | none => rfl
    | some qe =>
      obtain ⟨q, e⟩ := qe
      rw [verifyToken_hit c now token _ q e hcl] at hnet
      simp at hnet
  rw [verifyToken_miss c now token _ hmiss]
  have hout : verifyNetwork (cacheCleanup c now) now token (.response status body)
      = ⟨.unauth, cachePop (cacheCleanup c now) token, [token]⟩ := by
    simp [verifyNetwork, hs]
  rw [hout]
  refine ⟨rfl, cachePop_self _ _, ?_⟩
  intro now' net'
  exact verifyToken_calls_of_miss _ _ _ _
    (cacheCleanup_eq_none_of_none _ _ _ (cachePop_self _ _))

/-- Witness for C6: a previously cached token revoked by a 401 at the
provider, after its entry expired. -/
theorem non200_revokes_cache_entry_witness :
    (verifyToken (cacheInsert emptyCache "tok" ([("sub", "s")], 100)) 200 "tok"
        (.response 401 (some []))).result = .unauth ∧
    (verifyToken (cacheInsert emptyCache "tok" ([("sub", "s")], 100)) 200 "tok"
        (.response 401 (some []))).cache "tok" = none ∧
    ∀ (now' : Nat) (net' : NetOutcome),
      (verifyToken ((verifyToken (cacheInsert emptyCache "tok" ([("sub", "s")], 100))
          200 "tok" (.response 401 (some []))).cache) now' "tok" net').calls = ["tok"] :=
  non200_revokes_cache_entry (cacheInsert emptyCache "tok" ([("sub", "s")], 100))
    200 "tok" 401 (some []) (by decide) (by decide)

/-- Claim C8 (counterexample): A callback carrying `code=abc` and a present
but empty `state` parameter, with a successful exchange: the handler
redirects to `/` (the code tests `state`'s truthiness, not presence),
not to the present `state` value `""` as the claim requires. -/
theorem callback_state_present_empty_counterexample :
    ssoCallback ⟨some "abc", some ""⟩
        (.response 200 (some [("access_token", "tok1")]))
      = .redirectWithCookie "/"
          ⟨SSO_COOKIE_NAME, "tok1", true, true, "lax", 86400, "/"⟩ ∧
    some "" ≠ (none : Option String) ∧ ("" : String) ≠ "/" := by
  refine ⟨by decide, by decide, by decide⟩

/-- Claim C8 (amended): For every callback request carrying a non-empty code,
if the token-exchange POST returns 200 with a non-empty `access_token`
field, the handler responds 302 redirecting to the `state` query parameter
if it is present and non-empty, and otherwise to `/`; the response sets the
session cookie to exactly the returned access token with attributes
`httpOnly`, `secure`, `sameSite=lax`, max age 86400 seconds, and path `/`. -/
theorem callback_success_sets_cookie
    (code : String) (hcode : code ≠ "") (state : Option String) (tr : Payload)
    (htok : pget tr "access_token" ≠ "") :
    ((state = none ∨ state = some "") →
      ssoCallback ⟨some code, state⟩ (.response 200 (some tr))
        = .redirectWithCookie "/"
            ⟨SSO_COOKIE_NAME, pget tr "access_token", true, true, "lax",
             86400, "/"⟩) ∧
    (∀ s : String, state = some s → s ≠ "" →
      ssoCallback ⟨some code, state⟩ (.response 200 (some tr))
        = .redirectWithCookie s
            ⟨SSO_COOKIE_NAME, pget tr "access_token", true, true, "lax",
             86400, "/"⟩) := by
  constructor
  · rintro (rfl | rfl) <;> simp [ssoCallback, hcode, htok]
  · rintro s rfl hs
    simp [ssoCallback, hcode, htok, hs]

/-- Witness for C8 (amended): a successful exchange with a non-empty
`state` redirects there and sets the cookie to the returned token. -/
theorem callback_success_sets_cookie_witness :
    ssoCallback ⟨some "abc123", some "/next"⟩
        (.response 200 (some [("access_token", "tok1")]))
      = .redirectWithCookie "/next"
          ⟨SSO_COOKIE_NAME, pget [("access_token", "tok1")] "access_token",
           true, true, "lax", 86400, "/"⟩ :=
  (callback_success_sets_cookie "abc123" (by decide) (some "/next")
      [("access_token", "tok1")] (by decide)).2 "/next" rfl (by decide)

/-- Claim C1 (code bug): A 200 upstream response whose body is not valid
JSON makes `resp.json()` raise `json.JSONDecodeError`; neither
`_verify_token` (whose handler catches only `httpx.HTTPError`) nor
`sso_callback` (whose `try` covers only the POST itself) catches it, so
the exception escapes the gate / the handler instead of being translated
to an HTTP response, contradicting both the claim and `_verify_token`'s
own docstring (payload on success, `None` on failure).  The remaining
outcomes behave as claimed: a network failure during verification is
treated as unauthenticated (fail closed), a network failure during the
code exchange yields 502, and a provider-side non-200 rejection during
the exchange yields 401. -/
theorem json_decode_error_escapes :
    (dispatch defaultConfig emptyCache 0
        ⟨"/api/private", [], some "Bearer tok", some "application/json",
         "https://agent.orcest.ai/api/private"⟩
        (.response 200 none)).decision = .exn ∧
    ssoCallback ⟨some "abc123", none⟩ (.response 200 none) = .exn ∧
    (verifyToken emptyCache 0 "tok" .netError).result = .unauth ∧
    ssoCallback ⟨some "abc123", none⟩ .netError
      = .jsonError 502 "sso_unavailable" ∧
    ssoCallback ⟨some "abc123", none⟩ (.response 401 (some []))
      = .jsonError 401 "token_exchange_failed" := by
  refine ⟨by decide, by decide, rfl, by decide, by decide⟩

/-- Claim C3: For every request to a protected path with no extractable
credential, or whose credential fails verification: if the `Accept` header
contains the substring `text/html` the gate responds 302 to the identity
provider's authorize endpoint, whose query parameters are
`response_type=code`, `client_id`, `redirect_uri`,
`scope=openid profile email`, and `state` equal to the originally
requested URL; otherwise it responds 401 with a JSON body naming the
required cookie and the Authorization Bearer header. -/
theorem unauthenticated_response_shape
    (cfg : Config) (c : Cache) (now : Nat) (r : Request) (net : NetOutcome)
    (hpub : isPublicPath r.path = false)
    (hcred : extractToken r = none ∨
      ∃ t, extractToken r = some t ∧ (verifyToken c now t net).result = .unauth)
    (hurl : r.url ≠ "") :
    (strContainsSub (r.accept.getD "") "text/html" = true →
      (dispatch cfg c now r net).decision
          = .redirect (buildSsoLoginUrl cfg (some r.url)) ∧
      buildSsoLoginUrl cfg (some r.url)
          = cfg.issuer ++ "/authorize?"
              ++ urlencode (ssoLoginParams cfg (some r.url)) ∧
      ssoLoginParams cfg (some r.url)
          = [("response_type", "code"), ("client_id", cfg.clientId),
             ("redirect_uri", cfg.callbackUrl),
             ("scope", "openid profile email"), ("state", r.url)]) ∧
    (strContainsSub (r.accept.getD "") "text/html" = false →
      (dispatch cfg c now r net).decision = .rejected authRequiredContent ∧
      strContainsSub (pget authRequiredContent "message") SSO_COOKIE_NAME
          = true ∧
      strContainsSub (pget authRequiredContent "message") "Authorization: Bearer"
          = true) := by
  have hd : (dispatch cfg c now r net).decision = unauthenticatedResponse cfg r :=
    dispatch_decision_of_unauth cfg c now r net hpub hcred
  constructor
  · intro hb
    have hbrowser : isBrowserRequest r = true := hb
    refine ⟨?_, rfl, ?_⟩
    · rw [hd]
      simp [unauthenticatedResponse, hbrowser]
    · simp [ssoLoginParams, hurl]
  · intro hb
    have hbrowser : isBrowserRequest r = false := hb
    refine ⟨?_, by decide, by decide⟩
    rw [hd]
    simp [unauthenticatedResponse, hbrowser]

/-- Witness for C3, browser side: `GET /api/private` with `Accept:
text/html` and no credential is redirected to the login URL. -/
theorem unauthenticated_response_shape_witness :
    (dispatch defaultConfig emptyCache 0
        ⟨"/api/private", [], none, some "text/html",
         "https://agent.orcest.ai/api/private"⟩ .netError).decision
      = .redirect (buildSsoLoginUrl defaultConfig
          (some "https://agent.orcest.ai/api/private")) :=
  ((unauthenticated_response_shape defaultConfig emptyCache 0
      ⟨"/api/private", [], none, some "text/html",
       "https://agent.orcest.ai/api/private"⟩ .netError
      (by decide) (Or.inl (by decide)) (by decide)).1 (by decide)).1

/-- Claim C4: For every token whose verification at time `t` performed a
provider call and succeeded: along any further trace of verifier
invocations all happening before `t + 300` seconds, every `verify` call
for that same token before `t + 300` is served from the cache — it returns
exactly the cached payload and performs no network call — and a `verify`
call at or after `t + 300` triggers exactly one fresh verification request
to the provider. -/
theorem cache_ttl_idempotence
    (c : Cache) (t : Nat) (token : String) (net : NetOutcome) (p : Payload)
    (hok : (verifyToken c t token net).result = .ok p)
    (hfresh : (verifyToken c t token net).calls ≠ [])
    (steps : List Step)
    (hsteps : ∀ s ∈ steps, s.time < t + TOKEN_CACHE_TTL_SECONDS) :
    (∀ (t' : Nat) (net' : NetOutcome), t' < t + TOKEN_CACHE_TTL_SECONDS →
      verifyToken (runSteps (verifyToken c t token net).cache steps) t' token net'
        = ⟨.ok p,
           cacheCleanup (runSteps (verifyToken c t token net).cache steps) t',
           []⟩) ∧
    (∀ (t'' : Nat) (net'' : NetOutcome), t + TOKEN_CACHE_TTL_SECONDS ≤ t'' →
      (verifyToken (runSteps (verifyToken c t token net).cache steps) t'' token
          net'').calls = [token]) := by
  have hentry := verifyToken_fresh_success_entry c t token net p hok hfresh
  have hrun : runSteps (verifyToken c t token net).cache steps token
      = some (p, t + TOKEN_CACHE_TTL_SECONDS) :=
    runSteps_preserves_unexpired steps _ token p _ hentry hsteps
  constructor
  · intro t' net' ht'
    exact verifyToken_hit _ _ _ _ p _
      ((cacheCleanup_eq_some_iff _ _ _ _).mpr ⟨hrun, ht'⟩)
  · intro t'' net'' ht''
    refine verifyToken_calls_of_miss _ _ _ _ ?_
    simp [cacheCleanup, hrun, ht'']

/-- Witness for C4: a token freshly verified at time 0 is served from the
cache at time 10 with no provider call, even against an unreachable
provider. -/
theorem cache_ttl_idempotence_witness :
    verifyToken
        (runSteps (verifyToken emptyCache 0 "tok"
            (.response 200 (some [("sub", "s")]))).cache []) 10 "tok" .netError
      = ⟨.ok [("sub", "s")],
         cacheCleanup (runSteps (verifyToken emptyCache 0 "tok"
             (.response 200 (some [("sub", "s")]))).cache []) 10, []⟩ :=
  (cache_ttl_idempotence emptyCache 0 "tok" (.response 200 (some [("sub", "s")]))
      [("sub", "s")] (by decide) (by decide) []
      (by intro s hs; cases hs)).1 10 .netError (by decide)

/-- Claim C5: The cache invariant, preserved by every cache operation (the
cache is touched only by `_verify_token` and its `_cache_cleanup`):
(1) any entry present after a verifier invocation either predates it and
is unexpired, or was inserted by that invocation after a 200 response
from the verification endpoint, with expiry set to the insertion time
plus the 5-minute TTL; (2) a lookup never returns an entry past its
expiry instant: a verification answered from the cache (no provider call)
had an unexpired entry; (3) lazily, as part of each consultation, every
expired entry is removed: after any invocation at time `now`, no entry
with expiry `≤ now` remains; (4) `_cache_cleanup` keeps exactly the
unexpired entries. -/
theorem cache_entry_invariant :
    (∀ (c : Cache) (now : Nat) (token : String) (net : NetOutcome)
       (k : String) (pe : Payload × Nat),
       (verifyToken c now token net).cache k = some pe →
       (c k = some pe ∧ now < pe.2) ∨
       (k = token ∧ net = .response 200 (some pe.1) ∧
        pe.2 = now + TOKEN_CACHE_TTL_SECONDS)) ∧
    (∀ (c : Cache) (now : Nat) (token : String) (net : NetOutcome)
       (p : Payload),
       (verifyToken c now token net).result = .ok p →
       (verifyToken c now token net).calls = [] →
       ∃ e, c token = some (p, e) ∧ now < e) ∧
    (∀ (c : Cache) (now : Nat) (token : String) (net : NetOutcome)
       (k : String) (pe : Payload × Nat),
       (verifyToken c now token net).cache k = some pe → now < pe.2) ∧
    (∀ (c : Cache) (now : Nat) (k : String) (pe : Payload × Nat),
       cacheCleanup c now k = some pe ↔ (c k = some pe ∧ now < pe.2)) := by
  have hprov : ∀ (c : Cache) (now : Nat) (token : String) (net : NetOutcome)
      (k : String) (pe : Payload × Nat),
      (verifyToken c now token net).cache k = some pe →
      (c k = some pe ∧ now < pe.2) ∨
      (k = token ∧ net = .response 200 (some pe.1) ∧
       pe.2 = now + TOKEN_CACHE_TTL_SECONDS) := by
    intro c now token net k pe hk
    cases hcl : cacheCleanup c now token with
    | some qe =>
      obtain ⟨q, e⟩ := qe
      rw [verifyToken_hit c now token net q e hcl] at hk
      exact Or.inl ((cacheCleanup_eq_some_iff c now k pe).mp hk)
    | none =>
      rw [verifyToken_miss c now token net hcl] at hk
      cases net with
      | netError =>
        exact Or.inl ((cacheCleanup_eq_some_iff c now k pe).mp hk)
      | response status body =>
        by_cases hs : status = 200
        · subst hs
          cases body with
          | none =>
            exact Or.inl ((cacheCleanup_eq_some_iff c now k pe).mp hk)
          | some q =>
            by_cases hkt : k = token
            · subst hkt
              rw [show (verifyNetwork (cacheCleanup c now) now k
                    (.response 200 (some q))).cache
                  = cacheInsert (cacheCleanup c now) k
                      (q, now + TOKEN_CACHE_TTL_SECONDS) from rfl,
                  cacheInsert_self] at hk
              obtain rfl : (q, now + TOKEN_CACHE_TTL_SECONDS) = pe :=
                Option.some_injective _ hk
              exact Or.inr ⟨rfl, rfl, rfl⟩
            · rw [show (verifyNetwork (cacheCleanup c now) now token
                    (.response 200 (some q))).cache
                  = cacheInsert (cacheCleanup c now) token
                      (q, now + TOKEN_CACHE_TTL_SECONDS) from rfl,
                  cacheInsert_other _ _ _ _ hkt] at hk
              exact Or.inl ((cacheCleanup_eq_some_iff c now k pe).mp hk)
        · rw [show (verifyNetwork (cacheCleanup c now) now token
                (.response status body)).cache
              = cachePop (cacheCleanup c now) token from by
                simp [verifyNetwork, hs]] at hk
          by_cases hkt : k = token
          · subst hkt
            rw [cachePop_self] at hk
            cases hk
          · rw [cachePop_other _ _ _ hkt] at hk
            exact Or.inl ((cacheCleanup_eq_some_iff c now k pe).mp hk)
  refine ⟨hprov, ?_, ?_, cacheCleanup_eq_some_iff⟩
  · intro c now token net p hok hcalls
    cases hcl : cacheCleanup c now token with
    | some qe =>
      obtain ⟨q, e⟩ := qe
      rw [verifyToken_hit c now token net q e hcl] at hok
      have hq : q = p := by simpa using hok
      subst hq
      obtain ⟨hc, hlt⟩ := (cacheCleanup_eq_some_iff c now token (q, e)).mp hcl
      exact ⟨e, hc, hlt⟩
    | none =>
      rw [verifyToken_miss c now token net hcl, verifyNetwork_calls] at hcalls
      cases hcalls
  · intro c now token net k pe hk
    rcases hprov c now token net k pe hk with ⟨-, hlt⟩ | ⟨-, -, he⟩
    · exact hlt
    · rw [he]
      simp [TOKEN_CACHE_TTL_SECONDS]

/-- Witness for C5, part (2): a cached verification at time 5 against an
unreachable provider exposes the unexpired entry it was served from. -/
theorem cache_entry_invariant_witness :
    ∃ e, cacheInsert emptyCache "tok" ([("sub", "s")], 100) "tok"
        = some ([("sub", "s")], e) ∧ 5 < e :=
  cache_entry_invariant.2.1 (cacheInsert emptyCache "tok" ([("sub", "s")], 100))
    5 "tok" .netError [("sub", "s")] (by decide) (by decide)

end SSO
